import Mathlib

/-!
# Shallow embedding of the etcd-operator cluster controller core

This file embeds, in Lean 4, the parts of the etcd-operator repository that
the verified properties speak about:

* `src/pkg/cluster/cluster.go` — the per-cluster controller: `setup`,
  `create`, `send` (event ingress), the `run` loop's Modify-event and tick
  branches, `updateBackupPolicy`, `isSpecEqual`, `isBackupPolicyEqual`,
  `removePod`, `pollPods`, `updateCRStatus`.
* `src/unnamed/part_000` — the backup controller's `handleBackup` dispatch.

External collaborators (the Kubernetes client, the cluster-record client,
the backup manager's side effects, TLS secret reads, and the reconcile /
disaster-recovery subroutines that live outside the given sources) are
modelled as an environment record `Env` supplying their results, and the
calls the controller issues to them are recorded in an explicit `Action`
trace.  Go errors are plain strings; Go `nil`-able pointers are `Option`;
`reflect.DeepEqual` on the embedded records is structural (decidable)
equality.  Go typed-string enums (`ClusterPhase`, `PodPhase`,
`clusterEventType`, `BackupStorageType`) stay strings, so the `default`
branches of the Go switches remain reachable, as in the source.
-/

namespace EtcdOperator

/-- Go errors are modelled by their message string. -/
abbrev GoError := String

/-! ## Data model (pkg/spec)

Only the fields the embedded functions read are carried; omitted fields
(TLS block, pod policy, self-hosted block, object metadata) are never
inspected by the functions below. -/

/-- Model of `spec.BackupPolicy` (fields relevant to deep-equality and dispatch).
`reflect.DeepEqual` on two policies is structural equality of these fields. -/
structure BackupPolicy where
  storageType : String
  backupIntervalInSecond : Int
  maxBackups : Int
  deriving DecidableEq, Repr

/-- Model of `spec.ClusterSpec`: desired size, etcd version, paused flag, and the
optional backup policy (a `nil`-able pointer in Go). -/
structure ClusterSpec where
  size : Int
  version : String
  paused : Bool
  backup : Option BackupPolicy
  deriving DecidableEq, Repr

/-- Phase constants of `spec.ClusterPhase` (a typed string in Go). -/
def ClusterPhaseNone : String := ""

def ClusterPhaseCreating : String := "Creating"

def ClusterPhaseRunning : String := "Running"

def ClusterPhaseFailed : String := "Failed"

/-- Members sub-document of the status: ready and unready member names. -/
structure MembersStatus where
  ready : List String
  unready : List String
  deriving DecidableEq, Repr

/-- Model of `spec.ClusterStatus`: phase, last reason, control-paused flag, the
ordered condition log, actual size, and the member lists. -/
structure ClusterStatus where
  phase : String
  reason : String
  controlPaused : Bool
  conditions : List String
  size : Int
  members : MembersStatus
  deriving DecidableEq, Repr

/-- Model of `ClusterStatus.SetPhase`. Modelled from the spec: only the engine
mutates the phase field; the method sets it. -/
def ClusterStatus.setPhase (cs : ClusterStatus) (p : String) : ClusterStatus :=
  { cs with phase := p }

/-- Model of `ClusterStatus.SetReason`. Modelled from the spec: user-visible failures
surface via the last-reason string. -/
def ClusterStatus.setReason (cs : ClusterStatus) (r : String) : ClusterStatus :=
  { cs with reason := r }

/-- Model of `ClusterStatus.PauseControl`. Modelled from the spec: "record paused in
status conditions" — the control-paused flag is raised and a paused entry is
appended to the condition log. -/
def ClusterStatus.pauseControl (cs : ClusterStatus) : ClusterStatus :=
  { cs with controlPaused := true, conditions := cs.conditions ++ ["paused"] }

/-- Model of `ClusterStatus.Control`. Modelled from the spec: resume control — the
control-paused flag is lowered. -/
def ClusterStatus.control (cs : ClusterStatus) : ClusterStatus :=
  { cs with controlPaused := false }

/-- The cluster record: name, namespace (`ns`, as `namespace` is reserved
in Lean), UID, desired spec and persisted status (`spec.EtcdCluster`). -/
structure EtcdCluster where
  name : String
  ns : String
  uid : String
  spec : ClusterSpec
  status : ClusterStatus
  deriving DecidableEq, Repr

/-! ## Pods (the slice of `k8s.io/api/core/v1` that `pollPods` reads) -/

/-- An owner reference carries the owning object's UID. -/
structure OwnerReference where
  uid : String
  deriving DecidableEq, Repr

/-- Pod phase constants (`v1.PodPhase`, a typed string). -/
def PodRunning : String := "Running"

def PodPending : String := "Pending"

def PodSucceeded : String := "Succeeded"

def PodFailedPhase : String := "Failed"

/-- The fields of a pod that the controller inspects. -/
structure Pod where
  name : String
  ownerReferences : List OwnerReference
  phase : String
  deriving DecidableEq, Repr

/-! ## Events and the event channel -/

/-- Model of `clusterEventType` constants (typed strings in Go). -/
def eventDeleteCluster : String := "Delete"

def eventModifyCluster : String := "Modify"

/-- Model of `clusterEvent`: tagged event; the cluster pointer is `nil` for Delete. -/
structure clusterEvent where
  typ : String
  cluster : Option EtcdCluster
  deriving Repr

/-- The capacity of `eventCh` fixed in `New`: `make(chan *clusterEvent, 100)`. -/
def eventChCapacity : Nat := 100

/-- The observable state of the two channels `send` selects over: the
buffered contents of `eventCh` and whether `stopCh` has been closed. -/
structure ChanState where
  queue : List clusterEvent
  stopClosed : Bool

/-- Outcome of one call to `send` under Go select semantics. -/
inductive SendOutcome where
  | enqueued (queue : List clusterEvent)
  | stopReturn
  | blocked
  deriving Repr

/-- Model of `Cluster.send`: a two-case `select` with no `default` case.  The
enqueue case is ready iff the buffer has free space; the stop case is ready
iff `stopCh` is closed; when neither case is ready the `select` statement
blocks the caller.  (When both are ready Go chooses pseudo-randomly; the
model prefers the enqueue case, which none of the proved properties
depend on.) -/
def send (s : ChanState) (ev : clusterEvent) : SendOutcome :=
  if s.queue.length < eventChCapacity then .enqueued (s.queue ++ [ev])
  else if s.stopClosed then .stopReturn
  else .blocked

/-- Model of `Cluster.Update`: enqueue a Modify event carrying the new record. -/
def Update (s : ChanState) (cl : EtcdCluster) : SendOutcome :=
  send s { typ := eventModifyCluster, cluster := some cl }

/-- Model of `Cluster.Delete`: enqueue a Delete event. -/
def Delete (s : ChanState) : SendOutcome :=
  send s { typ := eventDeleteCluster, cluster := none }

/-! ## Spec comparison -/

/-- Model of `isBackupPolicyEqual`: `reflect.DeepEqual` on the two policy pointers —
equal iff both `nil`, or both non-`nil` with structurally equal pointees. -/
def isBackupPolicyEqual (b1 b2 : Option BackupPolicy) : Bool :=
  decide (b1 = b2)

/-- Model of `isSpecEqual`: same size, paused flag and version, and deep-equal
backup policies. -/
def isSpecEqual (s1 s2 : ClusterSpec) : Bool :=
  if s1.size != s2.size || s1.paused != s2.paused || s1.version != s2.version then
    false
  else
    isBackupPolicyEqual s1.backup s2.backup

/-! ## Controller state, environment and action traces -/

/-- The backup manager (`bm`): an external facade; the model remembers the
cluster record it was constructed from. -/
structure BackupManager where
  forCluster : EtcdCluster
  deriving Repr

/-- The controller fields the embedded functions mutate: the shared cluster
record pointer, the in-memory status, and the backup manager pointer. -/
structure ClusterState where
  cluster : EtcdCluster
  status : ClusterStatus
  bm : Option BackupManager
  deriving Repr

/-- An external call the controller issues, recorded in order. -/
inductive Action where
  /-- Model of `EtcdCRCli.Update` — a write of the cluster record. -/
  | crWrite (written : EtcdCluster)
  /-- Model of `gc.CollectCluster`. -/
  | collectCluster
  /-- Model of `bm.setup()`. -/
  | bmSetup
  /-- Model of `bm.upgradeIfNeeded()`. -/
  | bmUpgrade
  /-- Model of `bm.deleteBackupSidecar()`. -/
  | bmDeleteSidecar
  /-- Model of `bm.updateSidecar(cluster)`. -/
  | bmUpdateSidecar (cluster : EtcdCluster)
  /-- entry into `Cluster.create`. -/
  | callCreate
  /-- Model of `prepareSeedMember` (seed-member bootstrap, external pod creation). -/
  | prepareSeed
  /-- Model of `CreateClientService`. -/
  | createClientService
  /-- Model of `CreatePeerService`. -/
  | createPeerService
  /-- Model of `Pods.List` issued by `pollPods`. -/
  | listPods
  /-- Model of `Pods.Delete(name, opts)` with the termination grace period used. -/
  | deletePodCall (name : String) (gracePeriod : Int)
  /-- a pod creation issued by reconcile / recovery. -/
  | createPodCall (name : String)
  /-- an etcd membership change issued by reconcile. -/
  | memberChange (name : String)
  /-- Model of `disasterRecovery`. -/
  | disasterRecovery
  deriving DecidableEq, Repr

/-- Result of the platform's pod delete, as `removePod` distinguishes it
(`k8sutil.IsKubernetesResourceNotFoundError`). -/
inductive DeleteResult where
  | success
  | notFound
  | otherError (e : GoError)
  deriving Repr

/-- The environment: results of every external call the embedded functions
make.  Each field stands for one collaborator operation. -/
structure Env where
  /-- Model of `c.cluster.Spec.Validate()`. -/
  validate : Except GoError Unit
  /-- Model of `c.refreshTLSConfig()` (secret read + TLS construction). -/
  refreshTLS : Except GoError Unit
  /-- Model of `newBackupManager(c.config, cl, c.logger)`. -/
  newBackupManager : EtcdCluster → Except GoError BackupManager
  /-- Model of `bm.setup()`. -/
  bmSetup : Except GoError Unit
  /-- Model of `bm.upgradeIfNeeded()`. -/
  upgradeIfNeeded : Except GoError Unit
  /-- Model of `bm.updateSidecar(cluster)`. -/
  updateSidecar : EtcdCluster → Except GoError Unit
  /-- Model of `EtcdCRCli.Update(ctx, cluster)`: the stored record, or an error. -/
  crUpdate : EtcdCluster → Except GoError EtcdCluster
  /-- Model of `prepareSeedMember()` overall result (bootstrap path). -/
  prepareSeed : Except GoError Unit
  /-- Model of `CreateClientService`. -/
  createClientService : Except GoError Unit
  /-- Model of `CreatePeerService`. -/
  createPeerService : Except GoError Unit
  /-- Model of `Pods.List(ClusterListOpt(name))`: the items, or an error. -/
  listPods : Except GoError (List Pod)
  /-- Model of `Pods.Delete(name, opts)`. -/
  deletePod : String → DeleteResult
  /-- actions and result of `disasterRecovery(nil)` (outside src). -/
  disasterRecoverySteps : List Action × Except GoError Unit
  /-- actions and result of `updateMembers` + `reconcile` (outside src). -/
  reconcileSteps : List Action × Except GoError Unit

/-! ## Status reporter -/

/-- Model of `Cluster.updateCRStatus`.  If the record's status deep-equals the
in-memory status, skip.  Otherwise the code assigns `c.status` into the
record *through the shared pointer* (`newCluster := c.cluster;
newCluster.Status = c.status` aliases `c.cluster`), then calls the record
client; on success the returned record becomes the new baseline, on failure
the aliased assignment is kept. -/
def updateCRStatus (env : Env) (st : ClusterState) :
    ClusterState × List Action × Except GoError Unit :=
  if st.cluster.status = st.status then
    (st, [], .ok ())
  else
    let written : EtcdCluster := { st.cluster with status := st.status }
    let st1 : ClusterState := { st with cluster := written }
    match env.crUpdate written with
    | .error e => (st1, [.crWrite written], .error ("failed to update CR status: " ++ e))
    | .ok newCluster => ({ st1 with cluster := newCluster }, [.crWrite written], .ok ())

/-! ## Setup and create -/

/-- Overall outcome of `setup` / `create`: normal return, error return, or
a Go `panic` (the abrupt abort). -/
inductive SetupResult where
  | sOk (st : ClusterState)
  | sErr (st : ClusterState) (e : GoError)
  | sPanic (st : ClusterState) (msg : String)
  deriving Repr

/-- Model of `errCreatedCluster`, returned when setup finds phase Creating. -/
def errCreatedCluster : GoError := "cluster failed to be created"

/-- Model of `Cluster.create`: set phase Creating and persist; mark for garbage
collection; `bm.setup()` when a backup manager exists; create the seed
member only when there is no backup policy; create client and peer
services. -/
def create (env : Env) (st : ClusterState) : SetupResult × List Action :=
  let st := { st with status := st.status.setPhase ClusterPhaseCreating }
  match updateCRStatus env st with
  | (st, tr, .error e) =>
      (.sErr st ("cluster create: failed to update cluster phase (" ++
        ClusterPhaseCreating ++ "): " ++ e), tr)
  | (st, tr, .ok _) =>
    let tr := tr ++ [.collectCluster]
    let bmStep : List Action × Except GoError Unit :=
      match st.bm with
      | some _ => ([.bmSetup], env.bmSetup)
      | none => ([], .ok ())
    match bmStep with
    | (tr2, .error e) => (.sErr st e, tr ++ tr2)
    | (tr2, .ok _) =>
      let tr := tr ++ tr2
      let seedStep : ClusterState × List Action × Except GoError Unit :=
        match st.cluster.spec.backup with
        | none =>
          match env.prepareSeed with
          | .error e => (st, [.prepareSeed], .error e)
          | .ok _ => ({ st with status := { st.status with size := 1 } },
              [.prepareSeed], .ok ())
        | some _ => (st, [], .ok ())
      match seedStep with
      | (st, tr3, .error e) => (.sErr st e, tr ++ tr3)
      | (st, tr3, .ok _) =>
        let tr := tr ++ tr3
        match env.createClientService with
        | .error e =>
            (.sErr st ("cluster create: fail to create client service LB: " ++ e),
              tr ++ [.createClientService])
        | .ok _ =>
          match env.createPeerService with
          | .error e =>
              (.sErr st ("cluster create: fail to create client service LB: " ++ e),
                tr ++ [.createClientService, .createPeerService])
          | .ok _ => (.sOk st, tr ++ [.createClientService, .createPeerService])

/-- The tail of `setup` after the phase dispatch: refresh TLS, construct
the backup manager when the spec has a backup policy (and, when not a
first-time create, run `upgradeIfNeeded`), then call `create` iff
`shouldCreateCluster`. -/
def setupAfterPhase (env : Env) (st : ClusterState) (shouldCreateCluster : Bool) :
    SetupResult × List Action :=
  match env.refreshTLS with
  | .error e => (.sErr st ("faled to refresh tlsConfig: " ++ e), [])
  | .ok _ =>
    let bmStep : ClusterState × List Action × Except GoError Unit :=
      match st.cluster.spec.backup with
      | none => (st, [], .ok ())
      | some _ =>
        match env.newBackupManager st.cluster with
        | .error e => (st, [], .error e)
        | .ok bm =>
          let st := { st with bm := some bm }
          if !shouldCreateCluster then
            (st, [.bmUpgrade], env.upgradeIfNeeded)
          else
            (st, [], .ok ())
    match bmStep with
    | (st, tr, .error e) => (.sErr st e, tr)
    | (st, tr, .ok _) =>
      if shouldCreateCluster then
        match create env st with
        | (r, tr2) => (r, tr ++ .callCreate :: tr2)
      else
        (.sOk st, tr)

/-- Model of `Cluster.setup`: validate the spec, then dispatch on the persisted
`Status.Phase` — None: first-time create; Creating: fail with
`errCreatedCluster`; Running: no create (backup upgrade path); Failed:
rewrite the phase to Running, persist via `updateCRStatus`, and panic;
any other string: unexpected-phase error. -/
def setup (env : Env) (st : ClusterState) : SetupResult × List Action :=
  match env.validate with
  | .error e => (.sErr st ("invalid cluster spec: " ++ e), [])
  | .ok _ =>
    if st.status.phase = ClusterPhaseNone then
      setupAfterPhase env st true
    else if st.status.phase = ClusterPhaseCreating then
      (.sErr st errCreatedCluster, [])
    else if st.status.phase = ClusterPhaseRunning then
      setupAfterPhase env st false
    else if st.status.phase = ClusterPhaseFailed then
      let st1 := { st with status := st.status.setPhase ClusterPhaseRunning }
      match updateCRStatus env st1 with
      | (st2, tr, _) =>
          (.sPanic st2 ("for Failed phase, we update the status to Running, and panic"), tr)
    else
      (.sErr st ("unexpected cluster phase: " ++ st.status.phase), [])

/-! ## Run loop: the Modify-event branch -/

/-- Result of `updateBackupPolicy`: normal return, an error, or the Go
`panic` hit on the unexpected both-`nil` comparison. -/
inductive UBPResult where
  | ok
  | err (e : GoError)
  | panicked (msg : String)
  deriving DecidableEq, Repr

/-- Model of `Cluster.updateBackupPolicy(ob, nb)`: switch over pointer nil-ness —
`nil → non-nil` constructs a backup manager and runs its `setup()`;
`non-nil → nil` deletes the backup sidecar and drops the manager;
`non-nil → non-nil` patches the sidecar; both `nil` panics. -/
def updateBackupPolicy (env : Env) (st : ClusterState)
    (ob nb : Option BackupPolicy) : ClusterState × List Action × UBPResult :=
  match ob, nb with
  | none, some _ =>
    match env.newBackupManager st.cluster with
    | .error e => (st, [], .err e)
    | .ok bm =>
      let st := { st with bm := some bm }
      match env.bmSetup with
      | .error e => (st, [.bmSetup], .err e)
      | .ok _ => (st, [.bmSetup], .ok)
  | some _, none => ({ st with bm := none }, [.bmDeleteSidecar], .ok)
  | some _, some _ =>
    match env.updateSidecar st.cluster with
    | .error e => (st, [.bmUpdateSidecar st.cluster], .err e)
    | .ok _ => (st, [.bmUpdateSidecar st.cluster], .ok)
  | none, none => (st, [], .panicked ("unexpected backup spec comparison"))

/-- Outcome of one iteration of the `run` loop: keep looping with a new
state, or leave the loop (a `return` or a panic inside it). -/
inductive LoopOutcome where
  | loopContinue (st : ClusterState)
  | loopExit (st : ClusterState)
  | loopPanic (st : ClusterState) (msg : String)
  deriving Repr

/-- The `eventModifyCluster` case of `Cluster.run`: refresh TLS (warn-only),
short-circuit when `isSpecEqual(newSpec, currentSpec)`; otherwise adopt the
event's record as `c.cluster` and, when the backup policies are not
deep-equal, apply `updateBackupPolicy(ob, nb)` — on error set the status
reason and leave the loop. -/
def runModifyEvent (env : Env) (st : ClusterState) (ev : EtcdCluster) :
    LoopOutcome × List Action :=
  if isSpecEqual ev.spec st.cluster.spec then
    (.loopContinue st, [])
  else
    let ob := st.cluster.spec.backup
    let nb := ev.spec.backup
    let st1 := { st with cluster := ev }
    if !isBackupPolicyEqual ob nb then
      match updateBackupPolicy env st1 ob nb with
      | (st2, tr, .err e) =>
          (.loopExit { st2 with status := st2.status.setReason e }, tr)
      | (st2, tr, .panicked msg) => (.loopPanic st2 msg, tr)
      | (st2, tr, .ok) => (.loopContinue st2, tr)
    else
      (.loopContinue st1, [])

/-! ## Pod provisioner: pollPods and removePod -/

/-- The termination grace period (seconds) passed to every pod delete. -/
def podTerminationGracePeriod : Int := 5

/-- Model of `Cluster.removePod(name)`: delete the pod with
`NewDeleteOptions(podTerminationGracePeriod)`; a not-found error from the
platform is swallowed (the pod is already gone); other errors propagate. -/
def removePod (env : Env) (name : String) : List Action × Except GoError Unit :=
  let call : Action := .deletePodCall name podTerminationGracePeriod
  match env.deletePod name with
  | .success => ([call], .ok ())
  | .notFound => ([call], .ok ())
  | .otherError e => ([call], .error e)

/-- The ownership test of `pollPods`: a pod is ours iff it has at least one
owner reference and the first one's UID equals the cluster UID. -/
def ownedBy (uid : String) (p : Pod) : Bool :=
  match p.ownerReferences with
  | [] => false
  | o :: _ => o.uid == uid

/-- The classification loop of `pollPods` over the listed items: skip pods
with no owner or a foreign first-owner UID; append phase-Running pods to
`running` and phase-Pending pods to `pending`; every other phase falls
through the switch. -/
def pollPodsClassify (uid : String) : List Pod → List Pod × List Pod
  | [] => ([], [])
  | p :: rest =>
    let (running, pending) := pollPodsClassify uid rest
    match p.ownerReferences with
    | [] => (running, pending)
    | o :: _ =>
      if o.uid != uid then (running, pending)
      else if p.phase == PodRunning then (p :: running, pending)
      else if p.phase == PodPending then (running, p :: pending)
      else (running, pending)

/-- Model of `Cluster.pollPods()`: list the pods bearing the cluster-name label and
classify them; a platform list error is returned as a failure. -/
def pollPods (env : Env) (st : ClusterState) :
    List Action × Except GoError (List Pod × List Pod) :=
  match env.listPods with
  | .error e => ([.listPods], .error ("failed to list running pods: " ++ e))
  | .ok items => ([.listPods], .ok (pollPodsClassify st.cluster.uid items))

/-! ## Run loop: the reconcile tick -/

/-- The periodic-tick case of `Cluster.run` (the `time.After` branch):
refresh TLS (warn-only); when `Spec.Paused` record the paused condition and
skip the whole tick; otherwise resume control, poll pods (skip on error or
when any pod is pending), run disaster recovery when no pod is running, and
otherwise run the member reconcile; the membership/reconcile and recovery
subroutines live outside the given sources and contribute the actions and
result the environment assigns them. -/
def runTick (env : Env) (st : ClusterState) : ClusterState × List Action :=
  if st.cluster.spec.paused then
    ({ st with status := st.status.pauseControl }, [])
  else
    let st := { st with status := st.status.control }
    match pollPods env st with
    | (tr, .error _) => (st, tr)
    | (tr, .ok (running, pending)) =>
      if pending.length > 0 then (st, tr)
      else if running.length = 0 then
        (st, tr ++ [.disasterRecovery] ++ env.disasterRecoverySteps.1)
      else
        (st, tr ++ env.reconcileSteps.1)

/-! ## Backup controller: handleBackup dispatch (src/unnamed/part_000) -/

/-- Model of `api.BackupStorageTypeS3`. -/
def BackupStorageTypeS3 : String := "S3"

/-- Model of `api.BackupStorageTypeABS`. -/
def BackupStorageTypeABS : String := "ABS"

/-- Modelled from the spec: the PV storage type named in the data model
("storage type {S3, ABS, PV}"); its constant is missing from the given
sources, and all that matters below is that it differs from S3 and ABS. -/
def BackupStorageTypePV : String := "PV"

/-- Model of `api.BackupStatus` as `handleBackup` produces it. -/
structure BackupStatus where
  etcdVersion : String
  etcdRevision : Int
  deriving DecidableEq, Repr

/-- The fields of `api.BackupSpec` that `handleBackup` dispatches on. -/
structure BackupSpec where
  storageType : String
  deriving DecidableEq, Repr

/-- The environment of the backup controller: results of the storage
handlers `handleS3` and `handleABS`. -/
structure BackupEnv where
  handleS3 : Except GoError BackupStatus
  handleABS : Except GoError BackupStatus

/-- Outcome of `handleBackup`: a normal Go return of `(status, err)`, or a
`logrus.Fatalf` — which exits the process instead of returning. -/
inductive HandleBackupOutcome where
  | returned (bs : Option BackupStatus) (e : Option GoError)
  | fatal (msg : String)
  deriving DecidableEq, Repr

/-- Model of `Backup.handleBackup(spec)`: switch on `spec.StorageType` — S3 and ABS
delegate to their handlers and return; every other storage type hits the
`default` case, which calls `logrus.Fatalf` and terminates the process. -/
def handleBackup (env : BackupEnv) (spec : BackupSpec) : HandleBackupOutcome :=
  if spec.storageType == BackupStorageTypeS3 then
    match env.handleS3 with
    | .error e => .returned none (some e)
    | .ok bs => .returned (some bs) none
  else if spec.storageType == BackupStorageTypeABS then
    match env.handleABS with
    | .error e => .returned none (some e)
    | .ok bs => .returned (some bs) none
  else
    .fatal ("unknown StorageType: " ++ spec.storageType)

/-! ## Concrete fixtures (used by witnesses and counterexamples) -/

/-- A sample backup policy. -/
def sampleBackupPolicy : BackupPolicy :=
  { storageType := BackupStorageTypeS3, backupIntervalInSecond := 1800, maxBackups := 5 }

/-- A sample desired spec with no backup policy. -/
def sampleSpec : ClusterSpec :=
  { size := 3, version := "3.2.13", paused := false, backup := none }

/-- A fresh status (phase None). -/
def sampleStatus : ClusterStatus :=
  { phase := ClusterPhaseNone, reason := "", controlPaused := false,
    conditions := [], size := 0, members := { ready := [], unready := [] } }

/-- A sample cluster record. -/
def sampleCluster : EtcdCluster :=
  { name := "etcd-a", ns := "default", uid := "uid-1",
    spec := sampleSpec, status := sampleStatus }

/-- A sample controller state. -/
def sampleState : ClusterState :=
  { cluster := sampleCluster, status := sampleStatus, bm := none }

/-- An environment in which every external call succeeds and the record
client echoes the written record. -/
def okEnv : Env :=
  { validate := .ok ()
    refreshTLS := .ok ()
    newBackupManager := fun cl => .ok { forCluster := cl }
    bmSetup := .ok ()
    upgradeIfNeeded := .ok ()
    updateSidecar := fun _ => .ok ()
    crUpdate := fun cl => .ok cl
    prepareSeed := .ok ()
    createClientService := .ok ()
    createPeerService := .ok ()
    listPods := .ok []
    deletePod := fun _ => .success
    disasterRecoverySteps := ([], .ok ())
    reconcileSteps := ([], .ok ()) }

/-! ## Helper lemmas -/

/-- When the record's status already deep-equals the in-memory status,
`updateCRStatus` is a complete no-op. -/
theorem updateCRStatus_skip (env : Env) (st : ClusterState)
    (h : st.cluster.status = st.status) :
    updateCRStatus env st = (st, [], .ok ()) := by
  simp [updateCRStatus, h]

/-- After `updateCRStatus`, the (possibly shared-pointer-mutated) record's
status equals the in-memory status, in the skip case and in the
failed-write case; in the successful-write case the record is whatever the
client returned. -/
theorem updateCRStatus_cluster_status (env : Env) (st : ClusterState) :
    ((updateCRStatus env st).2.2 = .ok () ∧
      (∃ nc, st.cluster.status ≠ st.status ∧
        env.crUpdate { st.cluster with status := st.status } = .ok nc ∧
        (updateCRStatus env st).1.cluster = nc)) ∨
    (updateCRStatus env st).1.cluster.status = (updateCRStatus env st).1.status := by
  by_cases h : st.cluster.status = st.status
  · right
    simp [updateCRStatus_skip env st h, h]
  · unfold updateCRStatus
    simp only [h, if_false]
    cases hc : env.crUpdate { st.cluster with status := st.status } with
    | error e => right; simp
    | ok nc => left; exact ⟨rfl, nc, h, rfl, rfl⟩

/-- Model of `isSpecEqual` is reflexive (deep equality of a spec with itself). -/
theorem isSpecEqual_refl (s : ClusterSpec) : isSpecEqual s s = true := by
  simp [isSpecEqual, isBackupPolicyEqual]

/-- Model of `updateBackupPolicy` never touches the cluster-record field. -/
theorem updateBackupPolicy_cluster (env : Env) (st : ClusterState)
    (ob nb : Option BackupPolicy) :
    (updateBackupPolicy env st ob nb).1.cluster = st.cluster := by
  unfold updateBackupPolicy
  rcases ob with _ | b1 <;> rcases nb with _ | b2
  · rfl
  · cases env.newBackupManager st.cluster with
    | error e => rfl
    | ok bm => cases env.bmSetup with
      | error e => rfl
      | ok u => rfl
  · rfl
  · cases env.updateSidecar st.cluster with
    | error e => rfl
    | ok u => rfl

/-- A spec-equal Modify event is ignored by the run loop. -/
theorem runModifyEvent_of_specEqual (env : Env) (st : ClusterState)
    (ev : EtcdCluster) (h : isSpecEqual ev.spec st.cluster.spec = true) :
    runModifyEvent env st ev = (.loopContinue st, []) := by
  unfold runModifyEvent
  simp [h]

/-- Whenever a Modify event leaves the loop running, the resulting state
either is the unchanged one (spec-equal short-circuit) or stores the
event's record as the current cluster. -/
theorem runModifyEvent_continue_cluster (env : Env) (st : ClusterState)
    (ev : EtcdCluster) (st1 : ClusterState) (tr : List Action)
    (h : runModifyEvent env st ev = (.loopContinue st1, tr)) :
    (st1 = st ∧ isSpecEqual ev.spec st.cluster.spec = true) ∨ st1.cluster = ev := by
  unfold runModifyEvent at h
  by_cases he : isSpecEqual ev.spec st.cluster.spec = true
  · simp [he] at h
    exact Or.inl ⟨h.1.symm, he⟩
  · have he2 : isSpecEqual ev.spec st.cluster.spec = false :=
      Bool.not_eq_true _ ▸ eq_false_of_ne_true he
    rw [he2] at h
    simp only [Bool.false_eq_true, if_false] at h
    by_cases hb : isBackupPolicyEqual st.cluster.spec.backup ev.spec.backup = true
    · simp [hb] at h
      right
      rw [← h.1]
    · have hb2 : isBackupPolicyEqual st.cluster.spec.backup ev.spec.backup = false :=
        Bool.not_eq_true _ ▸ eq_false_of_ne_true hb
      rw [hb2] at h
      simp only [Bool.not_false, if_true] at h
      rcases hub : updateBackupPolicy env { st with cluster := ev }
          st.cluster.spec.backup ev.spec.backup with ⟨st2, tr2, r⟩
      have hc := updateBackupPolicy_cluster env { st with cluster := ev }
          st.cluster.spec.backup ev.spec.backup
      rw [hub] at h hc
      cases r with
      | err e => simp at h
      | panicked msg => simp at h
      | ok =>
        simp at h
        right
        rw [← h.1]
        exact hc

/-! # Claims -/

/-- C6. For every pod list returned by the platform, `pollPods`
retains exactly the pods whose first owner reference's UID equals the
cluster UID, returns the phase-Running and phase-Pending ones as two
separate lists (in listed order), and drops every other phase
(Succeeded/Failed/Unknown) from the classification. -/
theorem pollPods_classification (uid : String) (items : List Pod) :
    pollPodsClassify uid items =
      (items.filter (fun p => ownedBy uid p && p.phase == PodRunning),
       items.filter (fun p => ownedBy uid p && p.phase == PodPending)) := by
  induction items with
  | nil => rfl
  | cons p rest ih =>
    unfold pollPodsClassify
    rw [ih]
    simp only [List.filter_cons]
    cases ho : p.ownerReferences with
    | nil => simp [ownedBy, ho]
    | cons o os =>
      by_cases hu : o.uid = uid
      · have h1 : (o.uid == uid) = true := beq_iff_eq.mpr hu
        by_cases hr : p.phase = PodRunning
        · have h2 : (p.phase == PodRunning) = true := beq_iff_eq.mpr hr
          have h3 : (p.phase == PodPending) = false := by rw [hr]; decide
          simp [ownedBy, ho, h1, h2, h3, hu]
        · have h2 : (p.phase == PodRunning) = false := by
            simpa using hr
          by_cases hp : p.phase = PodPending
          · have h3 : (p.phase == PodPending) = true := beq_iff_eq.mpr hp
            simp [ownedBy, ho, h1, h2, h3, hu]
          · have h3 : (p.phase == PodPending) = false := by
              simpa using hp
            simp [ownedBy, ho, h1, h2, h3, hu]
      · have h1 : (o.uid == uid) = false := by simpa using hu
        simp [ownedBy, ho, h1, hu]

/-- C7. `removePod(name)` issues the platform delete with the 5-second
termination grace period; a not-found result (and a plain success) reports
success, and only other deletion errors are returned as failures — so
deleting an already-deleted pod reports success. -/
theorem removePod_spec (env : Env) (name : String) :
    (removePod env name).1 = [.deletePodCall name podTerminationGracePeriod] ∧
    podTerminationGracePeriod = 5 ∧
    (env.deletePod name = .notFound → (removePod env name).2 = .ok ()) ∧
    (env.deletePod name = .success → (removePod env name).2 = .ok ()) ∧
    (∀ e, env.deletePod name = .otherError e → (removePod env name).2 = .error e) := by
  refine ⟨?_, rfl, ?_, ?_, ?_⟩ <;>
    · try intro e
      try intro h
      all_goals unfold removePod
      all_goals cases hd : env.deletePod name <;> simp_all

/-- Witness for C7: deleting an already-deleted pod in an environment where
the platform reports not-found succeeds. -/
theorem removePod_spec_witness :
    (removePod { okEnv with deletePod := fun _ => .notFound } "etcd-a-0000").2 = .ok () :=
  (removePod_spec { okEnv with deletePod := fun _ => .notFound } "etcd-a-0000").2.2.1 rfl

/-- C8. Whenever the in-memory status deep-equals the status stored on
the cluster record, `updateCRStatus` returns success performing no write
(empty action trace) and leaves the controller state unchanged; otherwise
it writes the status back and adopts the record returned by the client as
the new baseline. -/
theorem updateCRStatus_skip_or_write (env : Env) (st : ClusterState) :
    (st.cluster.status = st.status →
      updateCRStatus env st = (st, [], .ok ())) ∧
    (st.cluster.status ≠ st.status →
      ∀ nc, env.crUpdate { st.cluster with status := st.status } = .ok nc →
        updateCRStatus env st =
          ({ st with cluster := nc },
           [.crWrite { st.cluster with status := st.status }], .ok ())) := by
  constructor
  · exact fun h => updateCRStatus_skip env st h
  · intro h nc hc
    unfold updateCRStatus
    simp [h, hc]

/-- Witness for C8: with an unchanged status, `updateCRStatus` on the
sample state is a no-op that performs no write. -/
theorem updateCRStatus_skip_or_write_witness :
    updateCRStatus okEnv sampleState = (sampleState, [], .ok ()) :=
  (updateCRStatus_skip_or_write okEnv sampleState).1 rfl

/-- C9. `updateCRStatus` assigns the new status into the shared
in-memory cluster record before calling the remote update: after a call
whose remote update failed the record's status deep-equals the in-memory
status (likewise after every call, provided the record client echoes the
status it was sent), and therefore a subsequent call with the same status
performs no write — a failed status write is never retried while the
status stays unchanged. -/
theorem updateCRStatus_assigns_before_update (env : Env) (st : ClusterState) :
    (∀ e, (updateCRStatus env st).2.2 = .error e →
      (updateCRStatus env st).1.cluster.status = (updateCRStatus env st).1.status) ∧
    ((∀ c nc, env.crUpdate c = .ok nc → nc.status = c.status) →
      (updateCRStatus env st).1.cluster.status = (updateCRStatus env st).1.status) ∧
    ((updateCRStatus env st).1.cluster.status = (updateCRStatus env st).1.status →
      updateCRStatus env ((updateCRStatus env st).1) =
        ((updateCRStatus env st).1, [], .ok ())) := by
  refine ⟨?_, ?_, ?_⟩
  · intro e he
    by_cases h : st.cluster.status = st.status
    · rw [updateCRStatus_skip env st h] at he
      exact absurd he (by simp)
    · unfold updateCRStatus at *
      simp only [h, if_false] at *
      cases hc : env.crUpdate { st.cluster with status := st.status } with
      | error e2 => simp [hc]
      | ok nc => simp [hc] at he
  · intro hecho
    by_cases h : st.cluster.status = st.status
    · rw [updateCRStatus_skip env st h]
      exact h
    · unfold updateCRStatus
      simp only [h, if_false]
      cases hc : env.crUpdate { st.cluster with status := st.status } with
      | error e2 => simp
      | ok nc =>
        have := hecho _ _ hc
        simpa using this
  · intro h
    by_cases h0 : (updateCRStatus env st).1.status = (updateCRStatus env st).1.status
    · exact updateCRStatus_skip env _ h
    · exact absurd rfl h0

/-- Witness for C9: after a failed remote update on a changed status, the
record's status equals the in-memory status (the assignment through the
shared pointer survives the error). -/
theorem updateCRStatus_assigns_before_update_witness :
    (updateCRStatus { okEnv with crUpdate := fun _ => .error ("conflict") }
        { sampleState with
            status := { sampleStatus with phase := ClusterPhaseRunning } }).1.cluster.status =
      (updateCRStatus { okEnv with crUpdate := fun _ => .error ("conflict") }
        { sampleState with
            status := { sampleStatus with phase := ClusterPhaseRunning } }).1.status :=
  (updateCRStatus_assigns_before_update
      { okEnv with crUpdate := fun _ => .error ("conflict") }
      { sampleState with
          status := { sampleStatus with phase := ClusterPhaseRunning } }).1
    ("failed to update CR status: conflict") rfl

/-- A placeholder Modify event used for filling the queue. -/
def dummyEvent : clusterEvent := { typ := eventModifyCluster, cluster := none }

/-- A channel state whose event queue is at its capacity of 100 while the
stop channel has not been closed. -/
def fullQueueState : ChanState :=
  { queue := List.replicate 100 dummyEvent, stopClosed := false }

/-- C2, counterexample. With the event queue already holding its
capacity of 100 events and the controller not stopped, both public
event-ingress methods block the producer: the `select` in `send` has no
`default` case, so neither of its cases is ready. -/
theorem send_blocks_on_full_queue :
    Update fullQueueState sampleCluster = .blocked ∧
    Delete fullQueueState = .blocked := by
  constructor <;> rfl

/-- C2, amended. `Update(newCluster)` and `Delete()` return without
blocking whenever the event queue is below its capacity of 100 or the stop
channel has been closed; when the queue is full and the controller has not
been stopped, both block the producer. -/
theorem send_nonblocking_characterization (s : ChanState) (cl : EtcdCluster) :
    (s.queue.length < eventChCapacity ∨ s.stopClosed = true →
      Update s cl ≠ .blocked ∧ Delete s ≠ .blocked) ∧
    (eventChCapacity ≤ s.queue.length ∧ s.stopClosed = false →
      Update s cl = .blocked ∧ Delete s = .blocked) := by
  have hnb : ∀ ev : clusterEvent,
      s.queue.length < eventChCapacity ∨ s.stopClosed = true →
      send s ev ≠ .blocked := by
    intro ev h
    unfold send
    rcases h with h | h
    · simp [h]
    · split
      · simp
      · simp [h]
  constructor
  · exact fun h => ⟨hnb _ h, hnb _ h⟩
  · rintro ⟨h1, h2⟩
    have h3 : ¬s.queue.length < eventChCapacity := not_lt.mpr h1
    constructor <;> simp [Update, Delete, send, h3, h2]

/-- Witness for C2 (amended): on an empty queue, `Delete` does not block. -/
theorem send_nonblocking_characterization_witness :
    Delete { queue := [], stopClosed := false } ≠ .blocked :=
  ((send_nonblocking_characterization { queue := [], stopClosed := false }
      sampleCluster).1 (Or.inl (by decide))).2

/-- C10. `handleBackup(spec)` returns a backup status value only for
the S3 and ABS storage types (delegating to their handlers); for every
other storage type — including the PV type the data model lists — it hits
the `default` branch, which logs fatally and terminates the process
instead of returning an error value. -/
theorem handleBackup_dispatch (env : BackupEnv) (sp : BackupSpec) :
    (sp.storageType = BackupStorageTypeS3 →
      handleBackup env sp =
        (match env.handleS3 with
         | .error e => .returned none (some e)
         | .ok bs => .returned (some bs) none)) ∧
    (sp.storageType = BackupStorageTypeABS →
      handleBackup env sp =
        (match env.handleABS with
         | .error e => .returned none (some e)
         | .ok bs => .returned (some bs) none)) ∧
    (sp.storageType ≠ BackupStorageTypeS3 → sp.storageType ≠ BackupStorageTypeABS →
      handleBackup env sp = .fatal ("unknown StorageType: " ++ sp.storageType)) ∧
    (sp.storageType = BackupStorageTypePV →
      handleBackup env sp = .fatal ("unknown StorageType: " ++ BackupStorageTypePV)) := by
  refine ⟨?_, ?_, ?_, ?_⟩
  · intro h
    have h1 : (sp.storageType == BackupStorageTypeS3) = true := beq_iff_eq.mpr h
    unfold handleBackup
    simp [h1]
  · intro h
    have h1 : (sp.storageType == BackupStorageTypeS3) = false := by
      rw [h]; decide
    have h2 : (sp.storageType == BackupStorageTypeABS) = true := beq_iff_eq.mpr h
    unfold handleBackup
    simp [h1, h2]
  · intro hs ha
    have h1 : (sp.storageType == BackupStorageTypeS3) = false := by simpa using hs
    have h2 : (sp.storageType == BackupStorageTypeABS) = false := by simpa using ha
    unfold handleBackup
    simp [h1, h2]
  · intro h
    have h1 : (sp.storageType == BackupStorageTypeS3) = false := by rw [h]; decide
    have h2 : (sp.storageType == BackupStorageTypeABS) = false := by rw [h]; decide
    unfold handleBackup
    simp only [h1, h2, Bool.false_eq_true, if_false]
    rw [h]

/-- Witness for C10: a PV-typed backup spec drives `handleBackup` into the
fatal process-terminating branch. -/
theorem handleBackup_dispatch_witness :
    handleBackup { handleS3 := .ok ⟨"3.2.13", 7⟩, handleABS := .ok ⟨"3.2.13", 7⟩ }
        { storageType := BackupStorageTypePV } =
      .fatal ("unknown StorageType: " ++ BackupStorageTypePV) :=
  (handleBackup_dispatch
      { handleS3 := .ok ⟨"3.2.13", 7⟩, handleABS := .ok ⟨"3.2.13", 7⟩ }
      { storageType := BackupStorageTypePV }).2.2.2 rfl

/-- C3. A Modify event whose new spec has the same size, version and
paused flag and a deep-equal backup policy is ignored by the run loop —
the stored cluster record, backup manager and status are left unchanged —
and applying the same Modify event twice yields the same outcome as
applying it once: after any application that keeps the loop running, a
second application of the same event is a no-op. -/
theorem runModifyEvent_specEqual_idempotent (env : Env) (st : ClusterState)
    (ev : EtcdCluster) :
    (isSpecEqual ev.spec st.cluster.spec = true →
      runModifyEvent env st ev = (.loopContinue st, [])) ∧
    (∀ st1 tr, runModifyEvent env st ev = (.loopContinue st1, tr) →
      runModifyEvent env st1 ev = (.loopContinue st1, [])) := by
  constructor
  · exact runModifyEvent_of_specEqual env st ev
  · intro st1 tr h
    rcases runModifyEvent_continue_cluster env st ev st1 tr h with ⟨h1, h2⟩ | h1
    · rw [h1]
      exact runModifyEvent_of_specEqual env st ev h2
    · apply runModifyEvent_of_specEqual
      rw [h1]
      exact isSpecEqual_refl ev.spec

/-- Witness for C3: the sample Modify event carrying the current spec
unchanged is ignored on the sample state. -/
theorem runModifyEvent_specEqual_idempotent_witness :
    runModifyEvent okEnv sampleState sampleCluster =
      (.loopContinue sampleState, []) :=
  (runModifyEvent_specEqual_idempotent okEnv sampleState sampleCluster).1
    (isSpecEqual_refl sampleSpec)

/-- The controller state with the sample cluster paused. -/
def pausedState : ClusterState :=
  { sampleState with
      cluster := { sampleCluster with spec := { sampleSpec with paused := true } } }

/-- C5. On every reconcile tick in which `Spec.Paused` is true, the
controller records the paused condition in the status and skips the rest
of the tick: the action trace is empty — no pod is polled, created or
deleted, no service is touched, no membership change is issued — and the
cluster record and backup manager are untouched. -/
theorem runTick_paused_skips (env : Env) (st : ClusterState)
    (h : st.cluster.spec.paused = true) :
    runTick env st = ({ st with status := st.status.pauseControl }, []) ∧
    (runTick env st).1.status.conditions = st.status.conditions ++ ["paused"] ∧
    (runTick env st).1.status.controlPaused = true ∧
    (runTick env st).1.cluster = st.cluster ∧
    (runTick env st).2 = [] := by
  have he : runTick env st = ({ st with status := st.status.pauseControl }, []) := by
    unfold runTick
    simp [h]
  refine ⟨he, ?_, ?_, ?_, ?_⟩ <;> rw [he] <;> simp [ClusterStatus.pauseControl]

/-- Witness for C5: a paused sample cluster's tick only records the paused
condition and issues no external call. -/
theorem runTick_paused_skips_witness :
    runTick okEnv pausedState =
      ({ pausedState with status := pausedState.status.pauseControl }, []) :=
  (runTick_paused_skips okEnv pausedState rfl).1

/-- C4. Under the precondition that the old and new backup policies
are not deep-equal — the only condition under which the run loop calls it,
an equal pair producing no backup-manager call at all — the both-`nil`
panic branch of `updateBackupPolicy(ob, nb)` is unreachable, and exactly
one of the three transitions happens: `nil → non-nil` constructs the
backup manager and runs its setup; `non-nil → nil` deletes the backup
sidecar and drops the manager; `non-nil → non-nil` patches the sidecar
with the current cluster; and when the call returns an error the run loop
stores it as the status reason and exits. -/
theorem updateBackupPolicy_transitions (env : Env) (st : ClusterState)
    (ob nb : Option BackupPolicy) (ev : EtcdCluster)
    (h : isBackupPolicyEqual ob nb = false) :
    ¬(ob = none ∧ nb = none) ∧
    (∀ msg, (updateBackupPolicy env st ob nb).2.2 ≠ .panicked msg) ∧
    ((ob = none ∧ nb ≠ none) ∨ (ob ≠ none ∧ nb = none) ∨ (ob ≠ none ∧ nb ≠ none)) ∧
    (∀ b, ob = none → nb = some b →
      updateBackupPolicy env st ob nb =
        (match env.newBackupManager st.cluster with
         | .error e => (st, [], .err e)
         | .ok bm =>
           match env.bmSetup with
           | .error e => ({ st with bm := some bm }, [.bmSetup], .err e)
           | .ok _ => ({ st with bm := some bm }, [.bmSetup], .ok))) ∧
    (∀ b, ob = some b → nb = none →
      updateBackupPolicy env st ob nb =
        ({ st with bm := none }, [.bmDeleteSidecar], .ok)) ∧
    (∀ b1 b2, ob = some b1 → nb = some b2 →
      updateBackupPolicy env st ob nb =
        (match env.updateSidecar st.cluster with
         | .error e => (st, [.bmUpdateSidecar st.cluster], .err e)
         | .ok _ => (st, [.bmUpdateSidecar st.cluster], .ok))) ∧
    (isBackupPolicyEqual st.cluster.spec.backup ev.spec.backup = true →
      (runModifyEvent env st ev).2 = []) ∧
    (∀ st2 tr e,
      isSpecEqual ev.spec st.cluster.spec = false →
      isBackupPolicyEqual st.cluster.spec.backup ev.spec.backup = false →
      updateBackupPolicy env { st with cluster := ev }
          st.cluster.spec.backup ev.spec.backup = (st2, tr, .err e) →
      runModifyEvent env st ev =
        (.loopExit { st2 with status := st2.status.setReason e }, tr)) := by
  have hnn : ¬(ob = none ∧ nb = none) := by
    rintro ⟨h1, h2⟩
    rw [h1, h2] at h
    simp [isBackupPolicyEqual] at h
  refine ⟨hnn, ?_, ?_, ?_, ?_, ?_, ?_, ?_⟩
  · intro msg
    unfold updateBackupPolicy
    rcases hb1 : ob with _ | b1 <;> rcases hb2 : nb with _ | b2
    · exact absurd (And.intro hb1 hb2) hnn
    · cases env.newBackupManager st.cluster with
      | error e => simp
      | ok bm => cases env.bmSetup with
        | error e => simp
        | ok u => simp
    · simp
    · cases env.updateSidecar st.cluster with
      | error e => simp
      | ok u => simp
  · rcases hb1 : ob with _ | b1 <;> rcases hb2 : nb with _ | b2
    · exact absurd (And.intro hb1 hb2) hnn
    · exact Or.inl ⟨rfl, by simp⟩
    · exact Or.inr (Or.inl ⟨by simp, rfl⟩)
    · exact Or.inr (Or.inr ⟨by simp, by simp⟩)
  · intro b h1 h2
    rw [h1, h2]
    unfold updateBackupPolicy
    cases env.newBackupManager st.cluster with
    | error e => rfl
    | ok bm => cases env.bmSetup with
      | error e => rfl
      | ok u => rfl
  · intro b h1 h2
    rw [h1, h2]
    rfl
  · intro b1 b2 h1 h2
    rw [h1, h2]
    unfold updateBackupPolicy
    cases env.updateSidecar st.cluster with
    | error e => rfl
    | ok u => rfl
  · intro hbe
    unfold runModifyEvent
    by_cases he : isSpecEqual ev.spec st.cluster.spec = true
    · simp [he]
    · have he2 : isSpecEqual ev.spec st.cluster.spec = false :=
        Bool.not_eq_true _ ▸ eq_false_of_ne_true he
      simp [he2, hbe]
  · intro st2 tr e he hbe hub
    unfold runModifyEvent
    rw [he]
    simp only [Bool.false_eq_true, if_false, hbe, Bool.not_false, if_true, hub]

/-- Witness for C4: dropping the sample backup policy (non-nil → nil)
deletes the backup sidecar and drops the manager. -/
theorem updateBackupPolicy_transitions_witness :
    updateBackupPolicy okEnv sampleState (some sampleBackupPolicy) none =
      ({ sampleState with bm := none }, [.bmDeleteSidecar], .ok) :=
  (updateBackupPolicy_transitions okEnv sampleState (some sampleBackupPolicy)
      none sampleCluster (by decide)).2.2.2.2.1 sampleBackupPolicy rfl rfl

/-- Reduction of `setup` when the persisted phase is None. -/
theorem setup_of_phase_none (env : Env) (st : ClusterState)
    (hv : env.validate = .ok ()) (hp : st.status.phase = ClusterPhaseNone) :
    setup env st = setupAfterPhase env st true := by
  unfold setup
  rw [hv, hp]
  simp [ClusterPhaseNone, ClusterPhaseCreating, ClusterPhaseRunning, ClusterPhaseFailed]

/-- Reduction of `setup` when the persisted phase is Creating. -/
theorem setup_of_phase_creating (env : Env) (st : ClusterState)
    (hv : env.validate = .ok ()) (hp : st.status.phase = ClusterPhaseCreating) :
    setup env st = (.sErr st errCreatedCluster, []) := by
  unfold setup
  rw [hv, hp]
  simp [ClusterPhaseNone, ClusterPhaseCreating, ClusterPhaseRunning, ClusterPhaseFailed]

/-- Reduction of `setup` when the persisted phase is Running. -/
theorem setup_of_phase_running (env : Env) (st : ClusterState)
    (hv : env.validate = .ok ()) (hp : st.status.phase = ClusterPhaseRunning) :
    setup env st = setupAfterPhase env st false := by
  unfold setup
  rw [hv, hp]
  simp [ClusterPhaseNone, ClusterPhaseCreating, ClusterPhaseRunning, ClusterPhaseFailed]

/-- Reduction of `setup` when the persisted phase is Failed. -/
theorem setup_of_phase_failed (env : Env) (st : ClusterState)
    (hv : env.validate = .ok ()) (hp : st.status.phase = ClusterPhaseFailed) :
    setup env st =
      (.sPanic (updateCRStatus env
          { st with status := st.status.setPhase ClusterPhaseRunning }).1
        ("for Failed phase, we update the status to Running, and panic"),
       (updateCRStatus env
          { st with status := st.status.setPhase ClusterPhaseRunning }).2.1) := by
  unfold setup
  rw [hv, hp]
  simp [ClusterPhaseNone, ClusterPhaseCreating, ClusterPhaseRunning, ClusterPhaseFailed]

/-- C1. `setup()` dispatches on the persisted `Status.Phase`: for
phase None it proceeds to create the cluster (the call into `create`
appears in its trace); for phase Creating it returns the CreateInProgress
error without doing anything; for phase Running it never creates and, when
a backup policy is present, invokes `upgradeIfNeeded()`; for phase Failed
it rewrites the phase to Running, persists the status through
`updateCRStatus`, and aborts the controller abruptly (a panic). -/
theorem setup_phase_dispatch (env : Env) (st : ClusterState)
    (hv : env.validate = .ok ()) :
    (st.status.phase = ClusterPhaseNone → env.refreshTLS = .ok () →
      (st.cluster.spec.backup = none ∨
        ∃ bm, env.newBackupManager st.cluster = .ok bm) →
      .callCreate ∈ (setup env st).2) ∧
    (st.status.phase = ClusterPhaseCreating →
      setup env st = (.sErr st errCreatedCluster, [])) ∧
    (st.status.phase = ClusterPhaseRunning →
      .callCreate ∉ (setup env st).2) ∧
    (st.status.phase = ClusterPhaseRunning → env.refreshTLS = .ok () →
      ∀ b, st.cluster.spec.backup = some b →
      ∀ bm, env.newBackupManager st.cluster = .ok bm →
      .bmUpgrade ∈ (setup env st).2) ∧
    (st.status.phase = ClusterPhaseFailed →
      setup env st =
        (.sPanic (updateCRStatus env
            { st with status := st.status.setPhase ClusterPhaseRunning }).1
          ("for Failed phase, we update the status to Running, and panic"),
         (updateCRStatus env
            { st with status := st.status.setPhase ClusterPhaseRunning }).2.1)) := by
  refine ⟨?_, ?_, ?_, ?_, ?_⟩
  · intro hp htls hbm
    rw [setup_of_phase_none env st hv hp]
    unfold setupAfterPhase
    rw [htls]
    rcases hbm with hb | ⟨bm, hb⟩
    · simp [hb]
    · cases hbk : st.cluster.spec.backup with
      | none => simp [hbk]
      | some b => simp [hbk, hb]
  · exact fun hp => setup_of_phase_creating env st hv hp
  · intro hp
    rw [setup_of_phase_running env st hv hp]
    unfold setupAfterPhase
    cases env.refreshTLS with
    | error e => simp
    | ok u =>
      cases st.cluster.spec.backup with
      | none => simp
      | some b =>
        cases env.newBackupManager st.cluster with
        | error e => simp
        | ok bm =>
          cases env.upgradeIfNeeded with
          | error e => simp
          | ok u2 => simp
  · intro hp htls b hbk bm hb
    rw [setup_of_phase_running env st hv hp]
    unfold setupAfterPhase
    rw [htls]
    simp only [hbk, hb]
    cases env.upgradeIfNeeded with
    | error e => simp
    | ok u2 => simp
  · exact fun hp => setup_of_phase_failed env st hv hp

/-- Witness for C1: setting up the sample cluster while its persisted
phase is Creating refuses with the CreateInProgress error and performs
nothing. -/
theorem setup_phase_dispatch_witness :
    setup okEnv
        { sampleState with status := { sampleStatus with phase := ClusterPhaseCreating } } =
      (.sErr { sampleState with status := { sampleStatus with phase := ClusterPhaseCreating } }
        errCreatedCluster, []) :=
  (setup_phase_dispatch okEnv
      { sampleState with status := { sampleStatus with phase := ClusterPhaseCreating } }
      rfl).2.1 rfl

end EtcdOperator
